import Mathlib

/-!
Shallow embedding of the terraform-provider-nats repository
(`internal/nats/types.go`, `internal/nats/utils.go`,
`internal/provider/stream_resource.go`, `internal/provider/consumer_resource.go`,
`internal/provider/utils.go`).

Modelling conventions:
* Go `int64` and `time.Duration` are modelled as `Int`; Go `int` is modelled as
  `Int` as well (the provider is built for 64-bit platforms, where `int` is 64
  bits wide, so `int(x)`/`int64(x)` conversions between `int` and `int64` are
  the identity).  The one narrowing conversion in the source, `int32(...)` in
  `toStreamConfig`, is modelled explicitly by `int32ofInt64` (two's-complement
  truncation).
* Terraform `types.String` / `types.Int64` / `types.Bool` attribute values are
  modelled by their known values (`String`, `Int`, `Bool`): every attribute of
  the two resources is `Required` or has a `Default`, so plans and states carry
  known values; `ValueString`/`StringValue` round-trips are then identities.
* Go maps with distinct literal keys are modelled as association lists; Go map
  indexing `m[a]` yields the zero value of the value type when the key is
  absent, captured by the `GoZero` class.
* Go errors are modelled by the inductive `GoErr`; `fmt.Errorf("...: %w", err)`
  is `GoErr.wrapped msg err` and `errors.Is` is `GoErr.is` (unwrap chain).
-/

/-- `nats.StorageType` (Go constants, iota order: `FileStorage = 0`). -/
inductive StorageType
  | FileStorage
  | MemoryStorage
deriving DecidableEq, Repr

/-- `nats.DiscardPolicy` (iota order: `DiscardOld = 0`). -/
inductive DiscardPolicy
  | DiscardOld
  | DiscardNew
deriving DecidableEq, Repr

/-- `nats.RetentionPolicy` (iota order: `LimitsPolicy = 0`). -/
inductive RetentionPolicy
  | LimitsPolicy
  | InterestPolicy
  | WorkQueuePolicy
deriving DecidableEq, Repr

/-- `nats.AckPolicy` (iota order: `AckNonePolicy = 0`). -/
inductive AckPolicy
  | AckNonePolicy
  | AckAllPolicy
  | AckExplicitPolicy
deriving DecidableEq, Repr

/-- `nats.DeliverPolicy` (iota order: `DeliverAllPolicy = 0`); the wrapped
library declares six constants, of which the provider's map uses three. -/
inductive DeliverPolicy
  | DeliverAllPolicy
  | DeliverLastPolicy
  | DeliverNewPolicy
  | DeliverByStartSequencePolicy
  | DeliverByStartTimePolicy
  | DeliverLastPerSubjectPolicy
deriving DecidableEq, Repr

/-- The Go zero value of a type (what `m[a]` returns when `a` is absent). -/
class GoZero (α : Type) where
  zero : α

instance : GoZero String := ⟨""⟩
instance : GoZero StorageType := ⟨.FileStorage⟩
instance : GoZero DiscardPolicy := ⟨.DiscardOld⟩
instance : GoZero RetentionPolicy := ⟨.LimitsPolicy⟩
instance : GoZero AckPolicy := ⟨.AckNonePolicy⟩
instance : GoZero DeliverPolicy := ⟨.DeliverAllPolicy⟩

/-- Go map indexing `m[a]` over an association list: the value of the first
matching key, or the zero value of the value type when no key matches. -/
def mapGet [DecidableEq α] (m : List (α × β)) (zero : β) (a : α) : β :=
  match m with
  | [] => zero
  | (k, v) :: rest => if k = a then v else mapGet rest zero a

/-- `mapFn` from `internal/nats/utils.go`: `func(a A) B { return m[a] }`. -/
def mapFn [DecidableEq α] [GoZero β] (m : List (α × β)) : α → β :=
  fun a => mapGet m GoZero.zero a

/-- `invertMap` from `internal/nats/utils.go` (all maps below have distinct
values, so iteration order does not matter). -/
def invertMap (m : List (α × β)) : List (β × α) :=
  m.map (fun p => (p.2, p.1))

/-- The `storageType` map literal from `internal/nats/types.go`. -/
def storageType : List (String × StorageType) :=
  [("file", .FileStorage), ("memory", .MemoryStorage)]

def invertedStorageType : List (StorageType × String) := invertMap storageType

def ToStorageType : String → StorageType := mapFn storageType

def FromStorageType : StorageType → String := mapFn invertedStorageType

/-- The `discardPolicy` map literal from `internal/nats/types.go`. -/
def discardPolicy : List (String × DiscardPolicy) :=
  [("old", .DiscardOld), ("new", .DiscardNew)]

def invertedDiscardPolicy : List (DiscardPolicy × String) := invertMap discardPolicy

def ToDiscardPolicy : String → DiscardPolicy := mapFn discardPolicy

def FromDiscardPolicy : DiscardPolicy → String := mapFn invertedDiscardPolicy

/-- The `retentionPolicy` map literal from `internal/nats/types.go`. -/
def retentionPolicy : List (String × RetentionPolicy) :=
  [("limits", .LimitsPolicy), ("interest", .InterestPolicy), ("work", .WorkQueuePolicy)]

def invertedRetentionPolicy : List (RetentionPolicy × String) := invertMap retentionPolicy

def ToRetentionPolicy : String → RetentionPolicy := mapFn retentionPolicy

def FromRetentionPolicy : RetentionPolicy → String := mapFn invertedRetentionPolicy

/-- The `ackPolicy` map literal from `internal/nats/types.go`. -/
def ackPolicy : List (String × AckPolicy) :=
  [("none", .AckNonePolicy), ("all", .AckAllPolicy), ("explicit", .AckExplicitPolicy)]

def invertedAckPolicy : List (AckPolicy × String) := invertMap ackPolicy

def ToAckPolicy : String → AckPolicy := mapFn ackPolicy

def FromAckPolicy : AckPolicy → String := mapFn invertedAckPolicy

/-- The `deliverPolicy` map literal from `internal/nats/types.go`. -/
def deliverPolicy : List (String × DeliverPolicy) :=
  [("all", .DeliverAllPolicy), ("new", .DeliverNewPolicy), ("last", .DeliverLastPolicy)]

def invertedDeliverPolicy : List (DeliverPolicy × String) := invertMap deliverPolicy

def ToDeliverPolicy : String → DeliverPolicy := mapFn deliverPolicy

def FromDeliverPolicy : DeliverPolicy → String := mapFn invertedDeliverPolicy

example : FromStorageType (ToStorageType "memory") = "memory" := by decide
example : ToRetentionPolicy "bogus" = .LimitsPolicy := by decide

/-- Go's conversion `int32(v)` of an `int64` value: two's-complement
truncation to 32 bits. -/
def int32ofInt64 (v : Int) : Int :=
  (v + 2 ^ 31) % 2 ^ 32 - 2 ^ 31

/-- `convertSlice` from `internal/provider/utils.go`: builds a new slice by
applying `fn` to every element in order. -/
def convertSlice (l : List α) (fn : α → β) : List β :=
  l.map fn

/-- `streamResourceModel` from `internal/provider/stream_resource.go`.
Attribute values are modelled by their known values (see the header). -/
structure streamResourceModel where
  name : String
  subjects : List String
  storage : String
  num_replicas : Int
  retention : String
  discard : String
  max_msgs : Int
  max_consumers : Int
  max_bytes : Int
  max_msgs_per_subject : Int
  max_msg_size : Int
  max_age : Int
  duplicate_window : Int
  allow_direct : Bool
deriving DecidableEq, Repr

/-- The fields of `nats.StreamConfig` that the provider reads or writes
(`Name, Subjects, Storage, Replicas, Retention, Discard, MaxMsgs,
MaxConsumers, MaxBytes, MaxMsgsPerSubject, MaxMsgSize, MaxAge, Duplicates,
AllowDirect`); `MaxMsgSize` is a Go `int32`, `Replicas` and `MaxConsumers`
are Go `int`, `MaxAge` and `Duplicates` are `time.Duration`. -/
structure StreamConfig where
  name : String
  subjects : List String
  storage : StorageType
  replicas : Int
  retention : RetentionPolicy
  discard : DiscardPolicy
  maxMsgs : Int
  maxConsumers : Int
  maxBytes : Int
  maxMsgsPerSubject : Int
  maxMsgSize : Int
  maxAge : Int
  duplicates : Int
  allowDirect : Bool
deriving DecidableEq, Repr

/-- The Go zero value of `nats.StreamConfig` (restricted to the fields
modelled here). -/
def StreamConfig.zero : StreamConfig :=
  { name := "", subjects := [], storage := .FileStorage, replicas := 0,
    retention := .LimitsPolicy, discard := .DiscardOld, maxMsgs := 0,
    maxConsumers := 0, maxBytes := 0, maxMsgsPerSubject := 0,
    maxMsgSize := 0, maxAge := 0, duplicates := 0, allowDirect := false }

/-- `nats.StreamInfo`, restricted to the `Config` field — the only field of
the info struct that `fromStreamInfo` (and the rest of the provider) reads. -/
structure StreamInfo where
  config : StreamConfig
deriving DecidableEq, Repr

/-- The Go zero value of `nats.StreamInfo` (restricted as above). -/
def StreamInfo.zero : StreamInfo :=
  { config := StreamConfig.zero }

/-- `toStreamConfig` from `internal/provider/stream_resource.go`. -/
def toStreamConfig (data : streamResourceModel) : StreamConfig :=
  { name := data.name
    subjects := convertSlice data.subjects id
    storage := ToStorageType data.storage
    replicas := data.num_replicas
    retention := ToRetentionPolicy data.retention
    discard := ToDiscardPolicy data.discard
    maxMsgs := data.max_msgs
    maxConsumers := data.max_consumers
    maxBytes := data.max_bytes
    maxMsgsPerSubject := data.max_msgs_per_subject
    maxMsgSize := int32ofInt64 data.max_msg_size
    maxAge := data.max_age
    duplicates := data.duplicate_window
    allowDirect := data.allow_direct }

/-- `fromStreamInfo` from `internal/provider/stream_resource.go` (the
`int64(...)` conversions back from `int32`, `int` and `time.Duration` are
widenings or identities and so are not written). -/
def fromStreamInfo (streamInfo : StreamInfo) : streamResourceModel :=
  { name := streamInfo.config.name
    subjects := convertSlice streamInfo.config.subjects id
    storage := FromStorageType streamInfo.config.storage
    num_replicas := streamInfo.config.replicas
    retention := FromRetentionPolicy streamInfo.config.retention
    discard := FromDiscardPolicy streamInfo.config.discard
    max_msgs := streamInfo.config.maxMsgs
    max_consumers := streamInfo.config.maxConsumers
    max_bytes := streamInfo.config.maxBytes
    max_msgs_per_subject := streamInfo.config.maxMsgsPerSubject
    max_msg_size := streamInfo.config.maxMsgSize
    max_age := streamInfo.config.maxAge
    duplicate_window := streamInfo.config.duplicates
    allow_direct := streamInfo.config.allowDirect }

/-- `int64validator.OneOf(vals...)`: accepts exactly the listed values
(semantics of the terraform-plugin-framework-validators library). -/
def int64OneOf (vals : List Int) (v : Int) : Bool :=
  vals.contains v

/-- `int64validator.AtLeast(lo)`: accepts `v` iff `lo <= v`. -/
def int64AtLeast (lo : Int) (v : Int) : Bool :=
  lo ≤ v

/-- `int64validator.Between(lo, hi)`: accepts `v` iff `lo <= v <= hi`. -/
def int64Between (lo hi : Int) (v : Int) : Bool :=
  lo ≤ v && v ≤ hi

/-- `int64validator.Any(fs...)`: accepts iff some sub-validator accepts. -/
def int64Any (fs : List (Int → Bool)) (v : Int) : Bool :=
  fs.any (fun f => f v)

/-- `stringvalidator.OneOf(vals...)`: accepts exactly the listed strings. -/
def stringOneOf (vals : List String) (s : String) : Bool :=
  vals.contains s

/-- `infinityOrPositiveInt64Validator` from `internal/provider/utils.go`:
`int64validator.Any(int64validator.OneOf(-1), int64validator.AtLeast(1))`. -/
def infinityOrPositiveInt64Validator : Int → Bool :=
  int64Any [int64OneOf [-1], int64AtLeast 1]

/-- The conjunction of the per-attribute validators declared in
`streamResource.Schema` (`internal/provider/stream_resource.go`, lines
55–151), applied to a model's attribute values. -/
def streamSchemaAccepts (m : streamResourceModel) : Bool :=
  stringOneOf ["file", "memory"] m.storage &&
  int64Between 1 5 m.num_replicas &&
  stringOneOf ["limits", "interest", "work"] m.retention &&
  stringOneOf ["old", "new"] m.discard &&
  infinityOrPositiveInt64Validator m.max_msgs &&
  infinityOrPositiveInt64Validator m.max_consumers &&
  infinityOrPositiveInt64Validator m.max_bytes &&
  infinityOrPositiveInt64Validator m.max_msgs_per_subject &&
  infinityOrPositiveInt64Validator m.max_msg_size &&
  int64AtLeast 0 m.max_age &&
  infinityOrPositiveInt64Validator m.duplicate_window

/-- `consumerResourceModel` from `internal/provider/consumer_resource.go`. -/
structure consumerResourceModel where
  stream_name : String
  name : String
  mode : String
  deliver_policy : String
  ack_policy : String
  filter_subjects : List String
  deliver_subject : String
  deliver_group : String
deriving DecidableEq, Repr

/-- The fields of `nats.ConsumerConfig` that the provider reads or writes
(`Name, Durable, DeliverPolicy, AckPolicy, FilterSubjects, DeliverSubject,
DeliverGroup`); the remaining fields of the Go struct are left at their zero
values by `toConsumerConfig` and never read by the provider. -/
structure ConsumerConfig where
  name : String
  durable : String
  deliverPolicy : DeliverPolicy
  ackPolicy : AckPolicy
  filterSubjects : List String
  deliverSubject : String
  deliverGroup : String
deriving DecidableEq, Repr

/-- The Go zero value of `nats.ConsumerConfig` (restricted to the fields
modelled here). -/
def ConsumerConfig.zero : ConsumerConfig :=
  { name := "", durable := "", deliverPolicy := .DeliverAllPolicy,
    ackPolicy := .AckNonePolicy, filterSubjects := [],
    deliverSubject := "", deliverGroup := "" }

/-- `nats.ConsumerInfo`, restricted to the fields the provider reads:
`Stream`, `Name` and `Config`. -/
structure ConsumerInfo where
  stream : String
  name : String
  config : ConsumerConfig
deriving DecidableEq, Repr

/-- The Go zero value of `nats.ConsumerInfo` (restricted as above). -/
def ConsumerInfo.zero : ConsumerInfo :=
  { stream := "", name := "", config := ConsumerConfig.zero }

/-- `validateMode` from `internal/provider/consumer_resource.go`: `some msg`
models a non-nil `error` return. -/
def validateMode (data : consumerResourceModel) : Option String :=
  if data.mode = "pull" ∧ data.deliver_subject ≠ "" then
    some "Attribute 'deliver_subject' must not be set if 'mode' is 'pull'"
  else if data.mode = "push" ∧ data.deliver_subject = "" then
    some "Attribute 'deliver_subject' must be set if 'mode' is 'push'"
  else
    none

/-- `toConsumerConfig` from `internal/provider/consumer_resource.go`. -/
def toConsumerConfig (data : consumerResourceModel) : Except String ConsumerConfig :=
  match validateMode data with
  | some e => .error e
  | none => .ok
      { name := data.name
        durable := data.name
        deliverPolicy := ToDeliverPolicy data.deliver_policy
        ackPolicy := ToAckPolicy data.ack_policy
        filterSubjects := convertSlice data.filter_subjects id
        deliverSubject := data.deliver_subject
        deliverGroup := data.deliver_group }

/-- `fromConsumerInfo` from `internal/provider/consumer_resource.go`. -/
def fromConsumerInfo (consumerInfo : ConsumerInfo) : consumerResourceModel :=
  { stream_name := consumerInfo.stream
    name := consumerInfo.name
    mode := if consumerInfo.config.deliverSubject ≠ "" then "push" else "pull"
    deliver_policy := FromDeliverPolicy consumerInfo.config.deliverPolicy
    ack_policy := FromAckPolicy consumerInfo.config.ackPolicy
    filter_subjects := convertSlice consumerInfo.config.filterSubjects id
    deliver_subject := consumerInfo.config.deliverSubject
    deliver_group := consumerInfo.config.deliverGroup }

/-- Go `error` values as the provider can observe them: the two library
sentinels it compares against, the package's own `ErrNotFound` sentinel,
opaque other library errors, and `fmt.Errorf("msg: %w", cause)` wrapping. -/
inductive GoErr
  | errStreamNotFound
  | errConsumerNotFound
  | errNotFound
  | lib (tag : Nat)
  | wrapped (msg : String) (cause : GoErr)
deriving DecidableEq, Repr

/-- `errors.Is(e, target)`: `e` equals `target` or some error in `e`'s
unwrap chain does (the only wrapper in this code base is `%w`). -/
def GoErr.is (e target : GoErr) : Bool :=
  e = target ||
    match e with
    | .wrapped _ cause => cause.is target
    | _ => false

example : (GoErr.wrapped "ctx" .errNotFound).is .errNotFound = true := by decide
example : (GoErr.lib 0).is .errNotFound = false := by decide

/-- Connection-level events of one `client` method invocation:
`nats.Connect` succeeding, `nc.Close()` (run by `defer`), and one JetStream
request (`js.StreamInfo`, `js.AddStream`, ...). -/
inductive ConnEvent
  | connOpen
  | connClose
  | jsRequest
deriving DecidableEq, Repr

/-- The environment a single `client` method call runs against: the outcome
of `nats.Connect(c.url)`, of `nc.JetStream()`, and of each possible JetStream
request (`none`/`.ok` model a nil error). -/
structure JsEnv where
  connect : Option GoErr
  jetStream : Option GoErr
  streamInfo : String → Except GoErr StreamInfo
  addStream : StreamConfig → Except GoErr StreamInfo
  updateStream : StreamConfig → Except GoErr StreamInfo
  deleteStream : String → Option GoErr
  consumerInfo : String → String → Except GoErr ConsumerInfo
  addConsumer : String → ConsumerConfig → Except GoErr ConsumerInfo
  updateConsumer : String → ConsumerConfig → Except GoErr ConsumerInfo
  deleteConsumer : String → String → Option GoErr

/-- Result of one `client` method invocation: the returned value, the
returned error (`none` = nil) and the connection events, in order. -/
structure CallOut (α : Type) where
  val : α
  err : Option GoErr
  trace : List ConnEvent

/-- `(*client).GetStream` from `internal/nats/types.go`. -/
def client.GetStream (env : JsEnv) (streamName : String) : CallOut StreamInfo :=
  match env.connect with
  | some e => ⟨StreamInfo.zero, some (.wrapped "failed to connect to nats" e), []⟩
  | none =>
    match env.jetStream with
    | some e => ⟨StreamInfo.zero, some (.wrapped "failed to create a jetstream context" e),
        [.connOpen, .connClose]⟩
    | none =>
      match env.streamInfo streamName with
      | .error e =>
        if e.is .errStreamNotFound || e.is .errConsumerNotFound then
          ⟨StreamInfo.zero, some .errNotFound, [.connOpen, .jsRequest, .connClose]⟩
        else
          ⟨StreamInfo.zero, some (.wrapped "failed to retrieve stream info" e),
            [.connOpen, .jsRequest, .connClose]⟩
      | .ok info => ⟨info, none, [.connOpen, .jsRequest, .connClose]⟩

/-- `(*client).CreateStream` from `internal/nats/types.go`. -/
def client.CreateStream (env : JsEnv) (streamConfig : StreamConfig) : CallOut StreamInfo :=
  match env.connect with
  | some e => ⟨StreamInfo.zero, some (.wrapped "failed to connect to nats" e), []⟩
  | none =>
    match env.jetStream with
    | some e => ⟨StreamInfo.zero, some (.wrapped "failed to create a jetstream context" e),
        [.connOpen, .connClose]⟩
    | none =>
      match env.addStream streamConfig with
      | .error e => ⟨StreamInfo.zero, some (.wrapped "failed to create stream" e),
          [.connOpen, .jsRequest, .connClose]⟩
      | .ok info => ⟨info, none, [.connOpen, .jsRequest, .connClose]⟩

/-- `(*client).UpdateStream` from `internal/nats/types.go`. -/
def client.UpdateStream (env : JsEnv) (streamConfig : StreamConfig) : CallOut StreamInfo :=
  match env.connect with
  | some e => ⟨StreamInfo.zero, some (.wrapped "failed to connect to nats" e), []⟩
  | none =>
    match env.jetStream with
    | some e => ⟨StreamInfo.zero, some (.wrapped "failed to create a jetstream context" e),
        [.connOpen, .connClose]⟩
    | none =>
      match env.updateStream streamConfig with
      | .error e => ⟨StreamInfo.zero, some (.wrapped "failed to update stream" e),
          [.connOpen, .jsRequest, .connClose]⟩
      | .ok info => ⟨info, none, [.connOpen, .jsRequest, .connClose]⟩

/-- `(*client).DeleteStream` from `internal/nats/types.go`. -/
def client.DeleteStream (env : JsEnv) (streamName : String) : CallOut Unit :=
  match env.connect with
  | some e => ⟨(), some (.wrapped "failed to connect to nats" e), []⟩
  | none =>
    match env.jetStream with
    | some e => ⟨(), some (.wrapped "failed to create a jetstream context" e),
        [.connOpen, .connClose]⟩
    | none =>
      match env.deleteStream streamName with
      | some e => ⟨(), some (.wrapped "failed to delete stream" e),
          [.connOpen, .jsRequest, .connClose]⟩
      | none => ⟨(), none, [.connOpen, .jsRequest, .connClose]⟩

/-- `(*client).GetConsumer` from `internal/nats/types.go`. -/
def client.GetConsumer (env : JsEnv) (streamName consumerName : String) : CallOut ConsumerInfo :=
  match env.connect with
  | some e => ⟨ConsumerInfo.zero, some (.wrapped "failed to connect to nats" e), []⟩
  | none =>
    match env.jetStream with
    | some e => ⟨ConsumerInfo.zero, some (.wrapped "failed to create a jetstream context" e),
        [.connOpen, .connClose]⟩
    | none =>
      match env.consumerInfo streamName consumerName with
      | .error e =>
        if e.is .errStreamNotFound || e.is .errConsumerNotFound then
          ⟨ConsumerInfo.zero, some .errNotFound, [.connOpen, .jsRequest, .connClose]⟩
        else
          ⟨ConsumerInfo.zero, some (.wrapped "failed to retrieve consumer info" e),
            [.connOpen, .jsRequest, .connClose]⟩
      | .ok info => ⟨info, none, [.connOpen, .jsRequest, .connClose]⟩

/-- `(*client).CreateConsumer` from `internal/nats/types.go`. -/
def client.CreateConsumer (env : JsEnv) (streamName : String) (consumerConfig : ConsumerConfig) :
    CallOut ConsumerInfo :=
  match env.connect with
  | some e => ⟨ConsumerInfo.zero, some (.wrapped "failed to connect to nats" e), []⟩
  | none =>
    match env.jetStream with
    | some e => ⟨ConsumerInfo.zero, some (.wrapped "failed to create a jetstream context" e),
        [.connOpen, .connClose]⟩
    | none =>
      match env.addConsumer streamName consumerConfig with
      | .error e => ⟨ConsumerInfo.zero, some (.wrapped "failed to create consumer" e),
          [.connOpen, .jsRequest, .connClose]⟩
      | .ok info => ⟨info, none, [.connOpen, .jsRequest, .connClose]⟩

/-- `(*client).UpdateConsumer` from `internal/nats/types.go`. -/
def client.UpdateConsumer (env : JsEnv) (streamName : String) (consumerConfig : ConsumerConfig) :
    CallOut ConsumerInfo :=
  match env.connect with
  | some e => ⟨ConsumerInfo.zero, some (.wrapped "failed to connect to nats" e), []⟩
  | none =>
    match env.jetStream with
    | some e => ⟨ConsumerInfo.zero, some (.wrapped "failed to create a jetstream context" e),
        [.connOpen, .connClose]⟩
    | none =>
      match env.updateConsumer streamName consumerConfig with
      | .error e => ⟨ConsumerInfo.zero, some (.wrapped "failed to update consumer" e),
          [.connOpen, .jsRequest, .connClose]⟩
      | .ok info => ⟨info, none, [.connOpen, .jsRequest, .connClose]⟩

/-- `(*client).DeleteConsumer` from `internal/nats/types.go`. -/
def client.DeleteConsumer (env : JsEnv) (streamName consumerName : String) : CallOut Unit :=
  match env.connect with
  | some e => ⟨(), some (.wrapped "failed to connect to nats" e), []⟩
  | none =>
    match env.jetStream with
    | some e => ⟨(), some (.wrapped "failed to create a jetstream context" e),
        [.connOpen, .connClose]⟩
    | none =>
      match env.deleteConsumer streamName consumerName with
      | some e => ⟨(), some (.wrapped "failed to delete consumer" e),
          [.connOpen, .jsRequest, .connClose]⟩
      | none => ⟨(), none, [.connOpen, .jsRequest, .connClose]⟩

/-- Specification-side trace shape shared by all eight client methods: no
events when `nats.Connect` fails; open then close when `nc.JetStream()`
fails; open, one request, close otherwise. -/
def traceShape (env : JsEnv) : List ConnEvent :=
  match env.connect with
  | some _ => []
  | none =>
    match env.jetStream with
    | some _ => [.connOpen, .connClose]
    | none => [.connOpen, .jsRequest, .connClose]

/-- The `nats.Client` interface from `internal/nats/types.go`, as the
resource layer sees it: each method is a response (returned value and
returned error, `none` = nil). -/
structure ClientIface where
  getStream : String → StreamInfo × Option GoErr
  createStream : StreamConfig → StreamInfo × Option GoErr
  updateStream : StreamConfig → StreamInfo × Option GoErr
  deleteStream : String → Option GoErr
  getConsumer : String → String → ConsumerInfo × Option GoErr
  createConsumer : String → ConsumerConfig → ConsumerInfo × Option GoErr
  updateConsumer : String → ConsumerConfig → ConsumerInfo × Option GoErr
  deleteConsumer : String → String → Option GoErr

/-- One `nats.Client` method invocation together with its arguments, as
recorded by a resource operation. -/
inductive ClientCall
  | getStream (name : String)
  | createStream (cfg : StreamConfig)
  | updateStream (cfg : StreamConfig)
  | deleteStream (name : String)
  | getConsumer (stream name : String)
  | createConsumer (stream : String) (cfg : ConsumerConfig)
  | updateConsumer (stream : String) (cfg : ConsumerConfig)
  | deleteConsumer (stream name : String)
deriving DecidableEq, Repr

/-- What a resource operation did to the Terraform state: left it untouched,
removed the resource (`resp.State.RemoveResource`), or wrote a model
(`resp.State.Set`). -/
inductive StateOutcome (σ : Type)
  | unchanged
  | removed
  | set (s : σ)
deriving DecidableEq, Repr

/-- Observable outcome of one resource operation, given that reading the
plan/state structs succeeded: the client calls made (in order), the state
outcome, and whether an error / warning diagnostic was added. -/
structure OpResult (σ : Type) where
  calls : List ClientCall
  outcome : StateOutcome σ
  errorDiag : Bool
  warnDiag : Bool
deriving DecidableEq, Repr

/-- `streamResource.Create` from `internal/provider/stream_resource.go`,
after step 1 (reading the plan into `data`) has succeeded. -/
def streamResource.Create (cl : ClientIface) (data : streamResourceModel) :
    OpResult streamResourceModel :=
  let r := cl.createStream (toStreamConfig data)
  match r.2 with
  | some _ => ⟨[.createStream (toStreamConfig data)], .unchanged, true, false⟩
  | none => ⟨[.createStream (toStreamConfig data)], .set (fromStreamInfo r.1), false, false⟩

/-- `streamResource.Read` from `internal/provider/stream_resource.go`,
after step 1 (reading the current state into `data`) has succeeded;
`errors.Is(err, nats.ErrNotFound)` is `GoErr.is`. -/
def streamResource.Read (cl : ClientIface) (data : streamResourceModel) :
    OpResult streamResourceModel :=
  let r := cl.getStream data.name
  match r.2 with
  | some e =>
    if e.is .errNotFound then ⟨[.getStream data.name], .removed, false, true⟩
    else ⟨[.getStream data.name], .unchanged, true, false⟩
  | none => ⟨[.getStream data.name], .set (fromStreamInfo r.1), false, false⟩

/-- `streamResource.Update` from `internal/provider/stream_resource.go`,
after step 1 (reading plan and state) has succeeded. -/
def streamResource.Update (cl : ClientIface) (plan state : streamResourceModel) :
    OpResult streamResourceModel :=
  if plan.name ≠ state.name then ⟨[], .unchanged, true, false⟩
  else
    let r := cl.updateStream (toStreamConfig plan)
    match r.2 with
    | some _ => ⟨[.updateStream (toStreamConfig plan)], .unchanged, true, false⟩
    | none => ⟨[.updateStream (toStreamConfig plan)], .set (fromStreamInfo r.1), false, false⟩

/-- `streamResource.Delete` from `internal/provider/stream_resource.go`,
after step 1 (reading the current state) has succeeded. -/
def streamResource.Delete (cl : ClientIface) (state : streamResourceModel) :
    OpResult streamResourceModel :=
  match cl.deleteStream state.name with
  | some _ => ⟨[.deleteStream state.name], .unchanged, true, false⟩
  | none => ⟨[.deleteStream state.name], .unchanged, false, false⟩

/-- `consumerResource.Create` from `internal/provider/consumer_resource.go`,
after step 1 (reading the plan) has succeeded. -/
def consumerResource.Create (cl : ClientIface) (data : consumerResourceModel) :
    OpResult consumerResourceModel :=
  match toConsumerConfig data with
  | .error _ => ⟨[], .unchanged, true, false⟩
  | .ok consumerConfig =>
    let r := cl.createConsumer data.stream_name consumerConfig
    match r.2 with
    | some _ => ⟨[.createConsumer data.stream_name consumerConfig], .unchanged, true, false⟩
    | none => ⟨[.createConsumer data.stream_name consumerConfig],
        .set (fromConsumerInfo r.1), false, false⟩

/-- `consumerResource.Read` from `internal/provider/consumer_resource.go`,
after step 1 (reading the current state) has succeeded. -/
def consumerResource.Read (cl : ClientIface) (data : consumerResourceModel) :
    OpResult consumerResourceModel :=
  let r := cl.getConsumer data.stream_name data.name
  match r.2 with
  | some e =>
    if e.is .errNotFound then ⟨[.getConsumer data.stream_name data.name], .removed, false, true⟩
    else ⟨[.getConsumer data.stream_name data.name], .unchanged, true, false⟩
  | none => ⟨[.getConsumer data.stream_name data.name], .set (fromConsumerInfo r.1), false, false⟩

/-- `consumerResource.Update` from `internal/provider/consumer_resource.go`,
after step 1 (reading plan and state) has succeeded. -/
def consumerResource.Update (cl : ClientIface) (plan state : consumerResourceModel) :
    OpResult consumerResourceModel :=
  if plan.name ≠ state.name ∨ plan.stream_name ≠ state.stream_name then
    ⟨[], .unchanged, true, false⟩
  else
    match toConsumerConfig plan with
    | .error _ => ⟨[], .unchanged, true, false⟩
    | .ok consumerConfig =>
      let r := cl.updateConsumer plan.stream_name consumerConfig
      match r.2 with
      | some _ => ⟨[.updateConsumer plan.stream_name consumerConfig], .unchanged, true, false⟩
      | none => ⟨[.updateConsumer plan.stream_name consumerConfig],
          .set (fromConsumerInfo r.1), false, false⟩

/-- `consumerResource.Delete` from `internal/provider/consumer_resource.go`,
after step 1 (reading the current state) has succeeded. -/
def consumerResource.Delete (cl : ClientIface) (state : consumerResourceModel) :
    OpResult consumerResourceModel :=
  match cl.deleteConsumer state.stream_name state.name with
  | some _ => ⟨[.deleteConsumer state.stream_name state.name], .unchanged, true, false⟩
  | none => ⟨[.deleteConsumer state.stream_name state.name], .unchanged, false, false⟩

/-- Observable outcome of `consumerResource.ImportState`: whether the
"Invalid import id" error diagnostic was added, whether an out-of-bounds
slice index was reached (a Go runtime panic), and the attribute values
written when no panic occurs. -/
structure ImportOutcome where
  errorDiag : Bool
  panicked : Bool
  stream_name : Option String
  name : Option String
deriving DecidableEq, Repr

/-- Go `strings.Split(s, sep)` for the one-character separator used here:
the substrings between occurrences of `sep`; always at least one token
(`strings.Split("", "#") = [""]`). -/
def goSplit (s : String) (sep : Char) : List String :=
  (s.toList.splitOn sep).map (fun cs => { data := cs })

/-- `consumerResource.ImportState` from `internal/provider/consumer_resource.go`
(lines 216–226), given the request's import ID.  `strings.Split(id, "#")` is
`goSplit id` (both return at least one token, so `tokens[0]` and the
short-circuited condition are always in bounds, while the unconditional
`tokens[1]` on line 225 is modelled by `tokens[1]?`, `none` meaning an index
out-of-range panic).  The initial `ImportStatePassthroughID` call only
seeds the `name` attribute, which line 225 then overwrites; it is omitted. -/
def consumerResource.ImportState (id : String) : ImportOutcome :=
  let tokens := goSplit id '#'
  let errorDiag : Bool :=
    tokens.length ≠ 2 ∨ tokens.getD 0 "" = "" ∨ tokens.getD 1 "" = ""
  match tokens[0]?, tokens[1]? with
  | some t0, some t1 =>
    { errorDiag := errorDiag, panicked := false, stream_name := some t0, name := some t1 }
  | _, _ =>
    { errorDiag := errorDiag, panicked := true, stream_name := none, name := none }

/-! ## Theorems -/

/-- C2: every string in a mapping's domain round-trips through the To- and
From-functions, and every enum constant in a mapping's range round-trips
through the From- and To-functions, for all five string-enum mappings
(storage type, discard policy, retention policy, ack policy, deliver
policy). -/
theorem enum_maps_bidirectional :
    (∀ s ∈ ["file", "memory"], FromStorageType (ToStorageType s) = s) ∧
    (∀ e ∈ [StorageType.FileStorage, .MemoryStorage],
      ToStorageType (FromStorageType e) = e) ∧
    (∀ s ∈ ["old", "new"], FromDiscardPolicy (ToDiscardPolicy s) = s) ∧
    (∀ e ∈ [DiscardPolicy.DiscardOld, .DiscardNew],
      ToDiscardPolicy (FromDiscardPolicy e) = e) ∧
    (∀ s ∈ ["limits", "interest", "work"], FromRetentionPolicy (ToRetentionPolicy s) = s) ∧
    (∀ e ∈ [RetentionPolicy.LimitsPolicy, .InterestPolicy, .WorkQueuePolicy],
      ToRetentionPolicy (FromRetentionPolicy e) = e) ∧
    (∀ s ∈ ["none", "all", "explicit"], FromAckPolicy (ToAckPolicy s) = s) ∧
    (∀ e ∈ [AckPolicy.AckNonePolicy, .AckAllPolicy, .AckExplicitPolicy],
      ToAckPolicy (FromAckPolicy e) = e) ∧
    (∀ s ∈ ["all", "new", "last"], FromDeliverPolicy (ToDeliverPolicy s) = s) ∧
    (∀ e ∈ [DeliverPolicy.DeliverAllPolicy, .DeliverNewPolicy, .DeliverLastPolicy],
      ToDeliverPolicy (FromDeliverPolicy e) = e) := by
  decide

/-- Witness for C2 at the domain string "file" and the range constant
`DeliverLastPolicy`. -/
theorem enum_maps_bidirectional_witness :
    FromStorageType (ToStorageType "file") = "file" ∧
    ToDeliverPolicy (FromDeliverPolicy .DeliverLastPolicy) = .DeliverLastPolicy :=
  ⟨enum_maps_bidirectional.1 "file" (by decide),
   enum_maps_bidirectional.2.2.2.2.2.2.2.2.2 .DeliverLastPolicy (by decide)⟩

/-- C9: a string outside a mapping's domain is mapped to the Go zero value
of the enum type (`FileStorage`, `DiscardOld`, `LimitsPolicy`,
`AckNonePolicy`, `DeliverAllPolicy` respectively); no To-function can
signal an invalid input. -/
theorem to_maps_zero_value_on_unknown (s : String) :
    (s ∉ ["file", "memory"] → ToStorageType s = .FileStorage) ∧
    (s ∉ ["old", "new"] → ToDiscardPolicy s = .DiscardOld) ∧
    (s ∉ ["limits", "interest", "work"] → ToRetentionPolicy s = .LimitsPolicy) ∧
    (s ∉ ["none", "all", "explicit"] → ToAckPolicy s = .AckNonePolicy) ∧
    (s ∉ ["all", "new", "last"] → ToDeliverPolicy s = .DeliverAllPolicy) := by
  refine ⟨fun h => ?_, fun h => ?_, fun h => ?_, fun h => ?_, fun h => ?_⟩ <;>
    simp only [List.mem_cons, List.not_mem_nil, not_or, or_false] at h
  · obtain ⟨h1, h2⟩ := h
    simp [ToStorageType, mapFn, mapGet, storageType, Ne.symm h1, Ne.symm h2, GoZero.zero]
  · obtain ⟨h1, h2⟩ := h
    simp [ToDiscardPolicy, mapFn, mapGet, discardPolicy, Ne.symm h1, Ne.symm h2, GoZero.zero]
  · obtain ⟨h1, h2, h3⟩ := h
    simp [ToRetentionPolicy, mapFn, mapGet, retentionPolicy,
      Ne.symm h1, Ne.symm h2, Ne.symm h3, GoZero.zero]
  · obtain ⟨h1, h2, h3⟩ := h
    simp [ToAckPolicy, mapFn, mapGet, ackPolicy,
      Ne.symm h1, Ne.symm h2, Ne.symm h3, GoZero.zero]
  · obtain ⟨h1, h2, h3⟩ := h
    simp [ToDeliverPolicy, mapFn, mapGet, deliverPolicy,
      Ne.symm h1, Ne.symm h2, Ne.symm h3, GoZero.zero]

/-- Witness for C9 at the unknown string "bogus". -/
theorem to_maps_zero_value_on_unknown_witness :
    ToStorageType "bogus" = .FileStorage ∧ ToDiscardPolicy "bogus" = .DiscardOld ∧
    ToRetentionPolicy "bogus" = .LimitsPolicy ∧ ToAckPolicy "bogus" = .AckNonePolicy ∧
    ToDeliverPolicy "bogus" = .DeliverAllPolicy :=
  ⟨(to_maps_zero_value_on_unknown "bogus").1 (by decide),
   (to_maps_zero_value_on_unknown "bogus").2.1 (by decide),
   (to_maps_zero_value_on_unknown "bogus").2.2.1 (by decide),
   (to_maps_zero_value_on_unknown "bogus").2.2.2.1 (by decide),
   (to_maps_zero_value_on_unknown "bogus").2.2.2.2 (by decide)⟩

/-- C7: `infinityOrPositiveInt64Validator` accepts `v` iff `v = -1` or
`v ≥ 1` (so `0` and every value below `-1` are rejected); the stream
schema's `num_replicas` validator (`Between(1, 5)`) accepts iff
`1 ≤ v ≤ 5`; its `max_age` validator (`AtLeast(0)`) accepts iff `v ≥ 0`. -/
theorem schema_range_validators (v : Int) :
    (infinityOrPositiveInt64Validator v = true ↔ v = -1 ∨ 1 ≤ v) ∧
    (int64Between 1 5 v = true ↔ 1 ≤ v ∧ v ≤ 5) ∧
    (int64AtLeast 0 v = true ↔ 0 ≤ v) ∧
    infinityOrPositiveInt64Validator 0 = false ∧
    (v < -1 → infinityOrPositiveInt64Validator v = false) := by
  refine ⟨?_, ?_, ?_, by decide, fun h => ?_⟩
  all_goals
    simp [infinityOrPositiveInt64Validator, int64Any, int64OneOf, int64Between,
      int64AtLeast, List.any, List.contains]
  all_goals omega

/-- Witness for C7 at `v = -1`, `v = 3`, `v = 0` and `v = -2`. -/
theorem schema_range_validators_witness :
    infinityOrPositiveInt64Validator (-1) = true ∧
    int64Between 1 5 3 = true ∧
    int64AtLeast 0 0 = true ∧
    infinityOrPositiveInt64Validator (-2) = false :=
  ⟨(schema_range_validators (-1)).1.mpr (Or.inl rfl),
   (schema_range_validators 3).2.1.mpr (by omega),
   (schema_range_validators 0).2.2.1.mpr (by omega),
   (schema_range_validators (-2)).2.2.2.2 (by omega)⟩

/-- C8: refuted at import ID "abc".  `consumerResource.ImportState` adds the
"Invalid import id" diagnostic but does not return, and then unconditionally
indexes `tokens[1]`; an ID without '#' splits into a single token, so the
access is out of bounds (a Go runtime panic).  A well-formed
"stream#consumer" ID is handled without a panic or diagnostic. -/
theorem importState_out_of_bounds :
    (consumerResource.ImportState "abc").errorDiag = true ∧
    (consumerResource.ImportState "abc").panicked = true ∧
    (consumerResource.ImportState "orders#c1").panicked = false ∧
    (consumerResource.ImportState "orders#c1").errorDiag = false ∧
    (consumerResource.ImportState "orders#c1").stream_name = some "orders" ∧
    (consumerResource.ImportState "orders#c1").name = some "c1" := by
  decide

/-- Go's `int32(v)` conversion is the identity on values already in the
`int32` range. -/
theorem int32ofInt64_eq_self (v : Int) (h1 : -(2 ^ 31) ≤ v) (h2 : v < 2 ^ 31) :
    int32ofInt64 v = v := by
  unfold int32ofInt64
  omega

/-- A stream model that passes every schema validator but whose
`max_msg_size` (`2^31`) is truncated by the `int32` conversion in
`toStreamConfig`. -/
def c1Model : streamResourceModel :=
  { name := "s", subjects := ["a"], storage := "file", num_replicas := 1,
    retention := "limits", discard := "old", max_msgs := -1, max_consumers := -1,
    max_bytes := -1, max_msgs_per_subject := -1, max_msg_size := 2147483648,
    max_age := 0, duplicate_window := 120000000000, allow_direct := true }

/-- C1 counterexample: `c1Model` passes all stream schema validators
(`max_msg_size = 2^31 ≥ 1` satisfies `infinityOrPositiveInt64Validator`),
yet `fromStreamInfo` after `toStreamConfig` does not return it:
`toStreamConfig` narrows `max_msg_size` to `int32`, so it comes back as
`-2^31`. -/
theorem stream_roundTrip_fails_at_int32_boundary :
    streamSchemaAccepts c1Model = true ∧
    fromStreamInfo { config := toStreamConfig c1Model } ≠ c1Model ∧
    (fromStreamInfo { config := toStreamConfig c1Model }).max_msg_size = -2147483648 := by
  decide

/-- A `stringOneOf` acceptance is a list membership. -/
theorem stringOneOf_mem {vals : List String} {s : String}
    (h : stringOneOf vals s = true) : s ∈ vals := by
  simpa [stringOneOf, List.contains] using h

/-- `infinityOrPositiveInt64Validator` acceptance, unfolded. -/
theorem infinityOrPositive_iff (v : Int) :
    infinityOrPositiveInt64Validator v = true ↔ v = -1 ∨ 1 ≤ v := by
  simp [infinityOrPositiveInt64Validator, int64Any, int64OneOf, int64AtLeast,
    List.any, List.contains]

/-- Storage strings in the schema's domain round-trip. -/
theorem roundtrip_storage {s : String} (h : s ∈ ["file", "memory"]) :
    FromStorageType (ToStorageType s) = s := by
  simp only [List.mem_cons, List.not_mem_nil, or_false] at h
  rcases h with rfl | rfl <;> decide

/-- Retention strings in the schema's domain round-trip. -/
theorem roundtrip_retention {s : String} (h : s ∈ ["limits", "interest", "work"]) :
    FromRetentionPolicy (ToRetentionPolicy s) = s := by
  simp only [List.mem_cons, List.not_mem_nil, or_false] at h
  rcases h with rfl | rfl | rfl <;> decide

/-- Discard strings in the schema's domain round-trip. -/
theorem roundtrip_discard {s : String} (h : s ∈ ["old", "new"]) :
    FromDiscardPolicy (ToDiscardPolicy s) = s := by
  simp only [List.mem_cons, List.not_mem_nil, or_false] at h
  rcases h with rfl | rfl <;> decide

/-- C1 as amended: the round-trip holds for every validator-passing model
whose `max_msg_size` additionally fits in `int32` (`max_msg_size < 2^31`;
the validators already force `max_msg_size ≥ -1 > -2^31`). -/
theorem stream_roundTrip_within_int32 (m : streamResourceModel)
    (hacc : streamSchemaAccepts m = true)
    (hsize : m.max_msg_size < 2 ^ 31) :
    fromStreamInfo { config := toStreamConfig m } = m := by
  obtain ⟨name, subjects, storage, num_replicas, retention, discard, max_msgs,
    max_consumers, max_bytes, max_msgs_per_subject, max_msg_size, max_age,
    duplicate_window, allow_direct⟩ := m
  simp only [streamSchemaAccepts, Bool.and_eq_true] at hacc
  obtain ⟨⟨⟨⟨⟨⟨⟨⟨⟨⟨hsto, hnr⟩, hret⟩, hdis⟩, hmm⟩, hmc⟩, hmb⟩, hmps⟩, hms⟩, hage⟩, hdw⟩ := hacc
  unfold fromStreamInfo toStreamConfig convertSlice
  rw [streamResourceModel.mk.injEq]
  refine ⟨rfl, by simp, roundtrip_storage (stringOneOf_mem hsto), rfl,
    roundtrip_retention (stringOneOf_mem hret), roundtrip_discard (stringOneOf_mem hdis),
    rfl, rfl, rfl, rfl, ?_, rfl, rfl, rfl⟩
  show int32ofInt64 max_msg_size = max_msg_size
  have hb := (infinityOrPositive_iff max_msg_size).mp hms
  have hsize2 : max_msg_size < 2 ^ 31 := by simpa using hsize
  exact int32ofInt64_eq_self _ (by omega) hsize2

/-- A concrete validator-passing stream model with `max_msg_size` in the
`int32` range. -/
def c1Good : streamResourceModel :=
  { name := "orders", subjects := ["order.*"], storage := "memory",
    num_replicas := 3, retention := "interest", discard := "new",
    max_msgs := 10, max_consumers := -1, max_bytes := -1,
    max_msgs_per_subject := -1, max_msg_size := 1024, max_age := 5,
    duplicate_window := 120000000000, allow_direct := false }

/-- Witness for the amended C1 at the concrete model `c1Good`. -/
theorem stream_roundTrip_within_int32_witness :
    fromStreamInfo { config := toStreamConfig c1Good } = c1Good :=
  stream_roundTrip_within_int32 c1Good (by decide) (by decide)

/-- C3: `toConsumerConfig` returns an error exactly when the model's mode
and `deliver_subject` are inconsistent (`pull` with a non-empty subject, or
`push` with an empty one); otherwise it returns a config whose `Name` and
`Durable` both equal the model's name and whose remaining fields are the
mapped model fields. -/
theorem toConsumerConfig_mode_validation (d : consumerResourceModel) :
    ((∃ e, toConsumerConfig d = .error e) ↔
      (d.mode = "pull" ∧ d.deliver_subject ≠ "") ∨
      (d.mode = "push" ∧ d.deliver_subject = "")) ∧
    (∀ cfg, toConsumerConfig d = .ok cfg →
      cfg = { name := d.name, durable := d.name,
              deliverPolicy := ToDeliverPolicy d.deliver_policy,
              ackPolicy := ToAckPolicy d.ack_policy,
              filterSubjects := convertSlice d.filter_subjects id,
              deliverSubject := d.deliver_subject,
              deliverGroup := d.deliver_group }) := by
  by_cases h1 : d.mode = "pull" ∧ d.deliver_subject ≠ ""
  · constructor
    · exact ⟨fun _ => .inl h1,
        fun _ => ⟨"Attribute 'deliver_subject' must not be set if 'mode' is 'pull'",
          by simp [toConsumerConfig, validateMode, h1]⟩⟩
    · intro cfg hcfg
      simp [toConsumerConfig, validateMode, h1] at hcfg
  by_cases h2 : d.mode = "push" ∧ d.deliver_subject = ""
  · constructor
    · exact ⟨fun _ => .inr h2,
        fun _ => ⟨"Attribute 'deliver_subject' must be set if 'mode' is 'push'",
          by simp [toConsumerConfig, validateMode, h1, h2]⟩⟩
    · intro cfg hcfg
      simp [toConsumerConfig, validateMode, h1, h2] at hcfg
  · constructor
    · constructor
      · intro ⟨e, he⟩
        simp [toConsumerConfig, validateMode, h1, h2] at he
      · intro h
        exact absurd h (by simp [h1, h2])
    · intro cfg hcfg
      simp [toConsumerConfig, validateMode, h1, h2] at hcfg
      exact hcfg.symm

/-- A concrete pull-mode consumer model with an empty deliver subject. -/
def c3Model : consumerResourceModel :=
  { stream_name := "orders", name := "new_order_consumer", mode := "pull",
    deliver_policy := "all", ack_policy := "explicit",
    filter_subjects := ["orders.created"], deliver_subject := "",
    deliver_group := "" }

/-- The config `toConsumerConfig` produces for `c3Model`. -/
def c3Cfg : ConsumerConfig :=
  { name := "new_order_consumer", durable := "new_order_consumer",
    deliverPolicy := .DeliverAllPolicy, ackPolicy := .AckExplicitPolicy,
    filterSubjects := ["orders.created"], deliverSubject := "",
    deliverGroup := "" }

/-- Witness for C3 at the concrete model `c3Model`. -/
theorem toConsumerConfig_mode_validation_witness :
    c3Cfg = { name := c3Model.name, durable := c3Model.name,
              deliverPolicy := ToDeliverPolicy c3Model.deliver_policy,
              ackPolicy := ToAckPolicy c3Model.ack_policy,
              filterSubjects := convertSlice c3Model.filter_subjects id,
              deliverSubject := c3Model.deliver_subject,
              deliverGroup := c3Model.deliver_group } :=
  (toConsumerConfig_mode_validation c3Model).2 c3Cfg rfl

/-- C10: for both Read operations, a Get failure recognized as
`ErrNotFound` (via `errors.Is`) yields a warning diagnostic and removes the
resource from state; any other Get failure yields an error diagnostic and
leaves the state unchanged; only a successful Get overwrites the state,
with the fetched info mapped through `from*Info`. -/
theorem read_not_found_handling (cl : ClientIface) (sm : streamResourceModel)
    (cm : consumerResourceModel) :
    (∀ e, (cl.getStream sm.name).2 = some e → e.is .errNotFound = true →
      streamResource.Read cl sm = ⟨[.getStream sm.name], .removed, false, true⟩) ∧
    (∀ e, (cl.getStream sm.name).2 = some e → e.is .errNotFound = false →
      streamResource.Read cl sm = ⟨[.getStream sm.name], .unchanged, true, false⟩) ∧
    ((cl.getStream sm.name).2 = none →
      streamResource.Read cl sm =
        ⟨[.getStream sm.name], .set (fromStreamInfo (cl.getStream sm.name).1), false, false⟩) ∧
    (∀ m2, (streamResource.Read cl sm).outcome = .set m2 → (cl.getStream sm.name).2 = none) ∧
    (∀ e, (cl.getConsumer cm.stream_name cm.name).2 = some e → e.is .errNotFound = true →
      consumerResource.Read cl cm =
        ⟨[.getConsumer cm.stream_name cm.name], .removed, false, true⟩) ∧
    (∀ e, (cl.getConsumer cm.stream_name cm.name).2 = some e → e.is .errNotFound = false →
      consumerResource.Read cl cm =
        ⟨[.getConsumer cm.stream_name cm.name], .unchanged, true, false⟩) ∧
    ((cl.getConsumer cm.stream_name cm.name).2 = none →
      consumerResource.Read cl cm =
        ⟨[.getConsumer cm.stream_name cm.name],
          .set (fromConsumerInfo (cl.getConsumer cm.stream_name cm.name).1), false, false⟩) ∧
    (∀ m2, (consumerResource.Read cl cm).outcome = .set m2 →
      (cl.getConsumer cm.stream_name cm.name).2 = none) := by
  refine ⟨?_, ?_, ?_, ?_, ?_, ?_, ?_, ?_⟩
  · intro e he his
    simp [streamResource.Read, he, his]
  · intro e he his
    simp [streamResource.Read, he, his]
  · intro h
    simp [streamResource.Read, h]
  · intro m2 h
    rcases hr : (cl.getStream sm.name).2 with _ | e
    · rfl
    · cases hb : e.is .errNotFound <;> simp [streamResource.Read, hr, hb] at h
  · intro e he his
    simp [consumerResource.Read, he, his]
  · intro e he his
    simp [consumerResource.Read, he, his]
  · intro h
    simp [consumerResource.Read, h]
  · intro m2 h
    rcases hr : (cl.getConsumer cm.stream_name cm.name).2 with _ | e
    · rfl
    · cases hb : e.is .errNotFound <;> simp [consumerResource.Read, hr, hb] at h

/-- A client behavior whose Get methods fail with the `ErrNotFound`
sentinel and whose other methods succeed with zero infos. -/
def clNotFound : ClientIface :=
  { getStream := fun _ => (StreamInfo.zero, some .errNotFound)
    createStream := fun _ => (StreamInfo.zero, none)
    updateStream := fun _ => (StreamInfo.zero, none)
    deleteStream := fun _ => none
    getConsumer := fun _ _ => (ConsumerInfo.zero, some .errNotFound)
    createConsumer := fun _ _ => (ConsumerInfo.zero, none)
    updateConsumer := fun _ _ => (ConsumerInfo.zero, none)
    deleteConsumer := fun _ _ => none }

/-- Witness for C10: against `clNotFound`, reading the stream `c1Good`
warns and removes the resource. -/
theorem read_not_found_handling_witness :
    streamResource.Read clNotFound c1Good =
      ⟨[.getStream c1Good.name], .removed, false, true⟩ :=
  (read_not_found_handling clNotFound c1Good c3Model).1 .errNotFound rfl (by decide)

/-- C5: each resource operation (given that reading the plan/state
succeeded and local validation passed) performs exactly the one client call
corresponding to it, with the `to*Config`-derived argument, and on success
writes the state obtained by `from*Info` from the returned info. -/
theorem resource_ops_single_call (cl : ClientIface) (plan state : streamResourceModel)
    (cplan cstate : consumerResourceModel) :
    ((streamResource.Create cl plan).calls = [.createStream (toStreamConfig plan)]) ∧
    ((cl.createStream (toStreamConfig plan)).2 = none →
      (streamResource.Create cl plan).outcome =
        .set (fromStreamInfo (cl.createStream (toStreamConfig plan)).1)) ∧
    ((streamResource.Read cl state).calls = [.getStream state.name]) ∧
    ((cl.getStream state.name).2 = none →
      (streamResource.Read cl state).outcome =
        .set (fromStreamInfo (cl.getStream state.name).1)) ∧
    (plan.name = state.name →
      (streamResource.Update cl plan state).calls = [.updateStream (toStreamConfig plan)]) ∧
    (plan.name = state.name → (cl.updateStream (toStreamConfig plan)).2 = none →
      (streamResource.Update cl plan state).outcome =
        .set (fromStreamInfo (cl.updateStream (toStreamConfig plan)).1)) ∧
    ((streamResource.Delete cl state).calls = [.deleteStream state.name]) ∧
    (∀ cfg, toConsumerConfig cplan = .ok cfg →
      (consumerResource.Create cl cplan).calls = [.createConsumer cplan.stream_name cfg] ∧
      ((cl.createConsumer cplan.stream_name cfg).2 = none →
        (consumerResource.Create cl cplan).outcome =
          .set (fromConsumerInfo (cl.createConsumer cplan.stream_name cfg).1))) ∧
    ((consumerResource.Read cl cstate).calls =
      [.getConsumer cstate.stream_name cstate.name]) ∧
    ((cl.getConsumer cstate.stream_name cstate.name).2 = none →
      (consumerResource.Read cl cstate).outcome =
        .set (fromConsumerInfo (cl.getConsumer cstate.stream_name cstate.name).1)) ∧
    (cplan.name = cstate.name → cplan.stream_name = cstate.stream_name →
      ∀ cfg, toConsumerConfig cplan = .ok cfg →
      (consumerResource.Update cl cplan cstate).calls =
        [.updateConsumer cplan.stream_name cfg] ∧
      ((cl.updateConsumer cplan.stream_name cfg).2 = none →
        (consumerResource.Update cl cplan cstate).outcome =
          .set (fromConsumerInfo (cl.updateConsumer cplan.stream_name cfg).1))) ∧
    ((consumerResource.Delete cl cstate).calls =
      [.deleteConsumer cstate.stream_name cstate.name]) := by
  refine ⟨?_, ?_, ?_, ?_, ?_, ?_, ?_, ?_, ?_, ?_, ?_, ?_⟩
  · rcases hr : (cl.createStream (toStreamConfig plan)).2 with _ | e <;>
      simp [streamResource.Create, hr]
  · intro h
    simp [streamResource.Create, h]
  · rcases hr : (cl.getStream state.name).2 with _ | e
    · simp [streamResource.Read, hr]
    · cases hb : e.is .errNotFound <;> simp [streamResource.Read, hr, hb]
  · intro h
    simp [streamResource.Read, h]
  · intro h
    rcases hr : (cl.updateStream (toStreamConfig plan)).2 with _ | e <;>
      simp [streamResource.Update, h, hr]
  · intro h hok
    simp [streamResource.Update, h, hok]
  · rcases hr : cl.deleteStream state.name with _ | e <;>
      simp [streamResource.Delete, hr]
  · intro cfg hcfg
    constructor
    · rcases hr : (cl.createConsumer cplan.stream_name cfg).2 with _ | e <;>
        simp [consumerResource.Create, hcfg, hr]
    · intro h
      simp [consumerResource.Create, hcfg, h]
  · rcases hr : (cl.getConsumer cstate.stream_name cstate.name).2 with _ | e
    · simp [consumerResource.Read, hr]
    · cases hb : e.is .errNotFound <;> simp [consumerResource.Read, hr, hb]
  · intro h
    simp [consumerResource.Read, h]
  · intro h1 h2 cfg hcfg
    constructor
    · rcases hr : (cl.updateConsumer cplan.stream_name cfg).2 with _ | e <;>
        rw [h2] at hr <;> simp [consumerResource.Update, h1, h2, hcfg, hr]
    · intro h
      rw [h2] at h
      simp [consumerResource.Update, h1, h2, hcfg, h]
  · rcases hr : cl.deleteConsumer cstate.stream_name cstate.name with _ | e <;>
      simp [consumerResource.Delete, hr]

/-- A client behavior whose every method succeeds, echoing the argument
config back in the returned info. -/
def clEcho : ClientIface :=
  { getStream := fun _ => (StreamInfo.zero, none)
    createStream := fun c => ({ config := c }, none)
    updateStream := fun c => ({ config := c }, none)
    deleteStream := fun _ => none
    getConsumer := fun _ _ => (ConsumerInfo.zero, none)
    createConsumer := fun s c => ({ stream := s, name := c.name, config := c }, none)
    updateConsumer := fun s c => ({ stream := s, name := c.name, config := c }, none)
    deleteConsumer := fun _ _ => none }

/-- C4: `GetStream`/`GetConsumer` return the `ErrNotFound` sentinel exactly
when the library info request fails with `ErrStreamNotFound` or
`ErrConsumerNotFound` (per `errors.Is`); every other failure of any client
method is returned as a wrapped error (with a zero info value for the
info-returning methods); on success the returned info is the library's info
unchanged. -/
theorem client_error_propagation (env : JsEnv) (sn cn : String)
    (scfg : StreamConfig) (ccfg : ConsumerConfig) :
    ((client.GetStream env sn).err = some .errNotFound ↔
      env.connect = none ∧ env.jetStream = none ∧
      ∃ e, env.streamInfo sn = .error e ∧
        (e.is .errStreamNotFound || e.is .errConsumerNotFound) = true) ∧
    (∀ e, (client.GetStream env sn).err = some e → e ≠ .errNotFound →
      (client.GetStream env sn).val = StreamInfo.zero ∧
      ∃ msg cause, e = .wrapped msg cause) ∧
    ((client.GetStream env sn).err = none →
      ∃ info, env.streamInfo sn = .ok info ∧ (client.GetStream env sn).val = info) ∧
    ((client.GetConsumer env sn cn).err = some .errNotFound ↔
      env.connect = none ∧ env.jetStream = none ∧
      ∃ e, env.consumerInfo sn cn = .error e ∧
        (e.is .errStreamNotFound || e.is .errConsumerNotFound) = true) ∧
    (∀ e, (client.GetConsumer env sn cn).err = some e → e ≠ .errNotFound →
      (client.GetConsumer env sn cn).val = ConsumerInfo.zero ∧
      ∃ msg cause, e = .wrapped msg cause) ∧
    ((client.GetConsumer env sn cn).err = none →
      ∃ info, env.consumerInfo sn cn = .ok info ∧ (client.GetConsumer env sn cn).val = info) ∧
    (∀ e, (client.CreateStream env scfg).err = some e →
      (client.CreateStream env scfg).val = StreamInfo.zero ∧
      ∃ msg cause, e = .wrapped msg cause) ∧
    ((client.CreateStream env scfg).err = none →
      ∃ info, env.addStream scfg = .ok info ∧ (client.CreateStream env scfg).val = info) ∧
    (∀ e, (client.UpdateStream env scfg).err = some e →
      (client.UpdateStream env scfg).val = StreamInfo.zero ∧
      ∃ msg cause, e = .wrapped msg cause) ∧
    ((client.UpdateStream env scfg).err = none →
      ∃ info, env.updateStream scfg = .ok info ∧ (client.UpdateStream env scfg).val = info) ∧
    (∀ e, (client.CreateConsumer env sn ccfg).err = some e →
      (client.CreateConsumer env sn ccfg).val = ConsumerInfo.zero ∧
      ∃ msg cause, e = .wrapped msg cause) ∧
    ((client.CreateConsumer env sn ccfg).err = none →
      ∃ info, env.addConsumer sn ccfg = .ok info ∧
        (client.CreateConsumer env sn ccfg).val = info) ∧
    (∀ e, (client.UpdateConsumer env sn ccfg).err = some e →
      (client.UpdateConsumer env sn ccfg).val = ConsumerInfo.zero ∧
      ∃ msg cause, e = .wrapped msg cause) ∧
    ((client.UpdateConsumer env sn ccfg).err = none →
      ∃ info, env.updateConsumer sn ccfg = .ok info ∧
        (client.UpdateConsumer env sn ccfg).val = info) ∧
    (∀ e, (client.DeleteStream env sn).err = some e →
      ∃ msg cause, e = .wrapped msg cause) ∧
    (∀ e, (client.DeleteConsumer env sn cn).err = some e →
      ∃ msg cause, e = .wrapped msg cause) := by
  obtain ⟨conn, js, si, sadd, sup, sdel, ci, cadd, cup, cdel⟩ := env
  refine ⟨?_, ?_, ?_, ?_, ?_, ?_, ?_, ?_, ?_, ?_, ?_, ?_, ?_, ?_, ?_, ?_⟩
  · cases conn with
    | some ce => simp [client.GetStream]
    | none =>
      cases js with
      | some je => simp [client.GetStream]
      | none =>
        cases hsi : si sn with
        | error e =>
          cases hb : (e.is .errStreamNotFound || e.is .errConsumerNotFound) <;>
            simp [client.GetStream, hsi, hb] <;> simpa using hb
        | ok info => simp [client.GetStream, hsi]
  · intro e he hne
    cases conn with
    | some ce =>
      simp [client.GetStream] at he
      exact ⟨by simp [client.GetStream], _, _, he.symm⟩
    | none =>
      cases js with
      | some je =>
        simp [client.GetStream] at he
        exact ⟨by simp [client.GetStream], _, _, he.symm⟩
      | none =>
        cases hsi : si sn with
        | error e2 =>
          cases hb : (e2.is .errStreamNotFound || e2.is .errConsumerNotFound) with
          | true =>
            simp [client.GetStream, hsi, hb] at he
            exact absurd he.symm hne
          | false =>
            simp [client.GetStream, hsi, hb] at he
            exact ⟨by simp [client.GetStream, hsi, hb], _, _, he.symm⟩
        | ok info => simp [client.GetStream, hsi] at he
  · intro h
    cases conn with
    | some ce => simp [client.GetStream] at h
    | none =>
      cases js with
      | some je => simp [client.GetStream] at h
      | none =>
        cases hsi : si sn with
        | error e =>
          cases hb : (e.is .errStreamNotFound || e.is .errConsumerNotFound) <;>
            simp [client.GetStream, hsi, hb] at h
        | ok info => exact ⟨info, hsi, by simp [client.GetStream, hsi]⟩
  · cases conn with
    | some ce => simp [client.GetConsumer]
    | none =>
      cases js with
      | some je => simp [client.GetConsumer]
      | none =>
        cases hci : ci sn cn with
        | error e =>
          cases hb : (e.is .errStreamNotFound || e.is .errConsumerNotFound) <;>
            simp [client.GetConsumer, hci, hb] <;> simpa using hb
        | ok info => simp [client.GetConsumer, hci]
  · intro e he hne
    cases conn with
    | some ce =>
      simp [client.GetConsumer] at he
      exact ⟨by simp [client.GetConsumer], _, _, he.symm⟩
    | none =>
      cases js with
      | some je =>
        simp [client.GetConsumer] at he
        exact ⟨by simp [client.GetConsumer], _, _, he.symm⟩
      | none =>
        cases hci : ci sn cn with
        | error e2 =>
          cases hb : (e2.is .errStreamNotFound || e2.is .errConsumerNotFound) with
          | true =>
            simp [client.GetConsumer, hci, hb] at he
            exact absurd he.symm hne
          | false =>
            simp [client.GetConsumer, hci, hb] at he
            exact ⟨by simp [client.GetConsumer, hci, hb], _, _, he.symm⟩
        | ok info => simp [client.GetConsumer, hci] at he
  · intro h
    cases conn with
    | some ce => simp [client.GetConsumer] at h
    | none =>
      cases js with
      | some je => simp [client.GetConsumer] at h
      | none =>
        cases hci : ci sn cn with
        | error e =>
          cases hb : (e.is .errStreamNotFound || e.is .errConsumerNotFound) <;>
            simp [client.GetConsumer, hci, hb] at h
        | ok info => exact ⟨info, hci, by simp [client.GetConsumer, hci]⟩
  · intro e he
    cases conn with
    | some ce =>
      simp [client.CreateStream] at he
      exact ⟨by simp [client.CreateStream], _, _, he.symm⟩
    | none =>
      cases js with
      | some je =>
        simp [client.CreateStream] at he
        exact ⟨by simp [client.CreateStream], _, _, he.symm⟩
      | none =>
        cases hr : sadd scfg with
        | error e2 =>
          simp [client.CreateStream, hr] at he
          exact ⟨by simp [client.CreateStream, hr], _, _, he.symm⟩
        | ok info => simp [client.CreateStream, hr] at he
  · intro h
    cases conn with
    | some ce => simp [client.CreateStream] at h
    | none =>
      cases js with
      | some je => simp [client.CreateStream] at h
      | none =>
        cases hr : sadd scfg with
        | error e2 => simp [client.CreateStream, hr] at h
        | ok info => exact ⟨info, hr, by simp [client.CreateStream, hr]⟩
  · intro e he
    cases conn with
    | some ce =>
      simp [client.UpdateStream] at he
      exact ⟨by simp [client.UpdateStream], _, _, he.symm⟩
    | none =>
      cases js with
      | some je =>
        simp [client.UpdateStream] at he
        exact ⟨by simp [client.UpdateStream], _, _, he.symm⟩
      | none =>
        cases hr : sup scfg with
        | error e2 =>
          simp [client.UpdateStream, hr] at he
          exact ⟨by simp [client.UpdateStream, hr], _, _, he.symm⟩
        | ok info => simp [client.UpdateStream, hr] at he
  · intro h
    cases conn with
    | some ce => simp [client.UpdateStream] at h
    | none =>
      cases js with
      | some je => simp [client.UpdateStream] at h
      | none =>
        cases hr : sup scfg with
        | error e2 => simp [client.UpdateStream, hr] at h
        | ok info => exact ⟨info, hr, by simp [client.UpdateStream, hr]⟩
  · intro e he
    cases conn with
    | some ce =>
      simp [client.CreateConsumer] at he
      exact ⟨by simp [client.CreateConsumer], _, _, he.symm⟩
    | none =>
      cases js with
      | some je =>
        simp [client.CreateConsumer] at he
        exact ⟨by simp [client.CreateConsumer], _, _, he.symm⟩
      | none =>
        cases hr : cadd sn ccfg with
        | error e2 =>
          simp [client.CreateConsumer, hr] at he
          exact ⟨by simp [client.CreateConsumer, hr], _, _, he.symm⟩
        | ok info => simp [client.CreateConsumer, hr] at he
  · intro h
    cases conn with
    | some ce => simp [client.CreateConsumer] at h
    | none =>
      cases js with
      | some je => simp [client.CreateConsumer] at h
      | none =>
        cases hr : cadd sn ccfg with
        | error e2 => simp [client.CreateConsumer, hr] at h
        | ok info => exact ⟨info, hr, by simp [client.CreateConsumer, hr]⟩
  · intro e he
    cases conn with
    | some ce =>
      simp [client.UpdateConsumer] at he
      exact ⟨by simp [client.UpdateConsumer], _, _, he.symm⟩
    | none =>
      cases js with
      | some je =>
        simp [client.UpdateConsumer] at he
        exact ⟨by simp [client.UpdateConsumer], _, _, he.symm⟩
      | none =>
        cases hr : cup sn ccfg with
        | error e2 =>
          simp [client.UpdateConsumer, hr] at he
          exact ⟨by simp [client.UpdateConsumer, hr], _, _, he.symm⟩
        | ok info => simp [client.UpdateConsumer, hr] at he
  · intro h
    cases conn with
    | some ce => simp [client.UpdateConsumer] at h
    | none =>
      cases js with
      | some je => simp [client.UpdateConsumer] at h
      | none =>
        cases hr : cup sn ccfg with
        | error e2 => simp [client.UpdateConsumer, hr] at h
        | ok info => exact ⟨info, hr, by simp [client.UpdateConsumer, hr]⟩
  · intro e he
    cases conn with
    | some ce =>
      simp [client.DeleteStream] at he
      exact ⟨_, _, he.symm⟩
    | none =>
      cases js with
      | some je =>
        simp [client.DeleteStream] at he
        exact ⟨_, _, he.symm⟩
      | none =>
        cases hr : sdel sn with
        | some e2 =>
          simp [client.DeleteStream, hr] at he
          exact ⟨_, _, he.symm⟩
        | none => simp [client.DeleteStream, hr] at he
  · intro e he
    cases conn with
    | some ce =>
      simp [client.DeleteConsumer] at he
      exact ⟨_, _, he.symm⟩
    | none =>
      cases js with
      | some je =>
        simp [client.DeleteConsumer] at he
        exact ⟨_, _, he.symm⟩
      | none =>
        cases hr : cdel sn cn with
        | some e2 =>
          simp [client.DeleteConsumer, hr] at he
          exact ⟨_, _, he.symm⟩
        | none => simp [client.DeleteConsumer, hr] at he

/-- A concrete environment whose stream-info request fails with the
library's `ErrStreamNotFound`. -/
def envNotFound : JsEnv :=
  { connect := none, jetStream := none
    streamInfo := fun _ => .error .errStreamNotFound
    addStream := fun c => .ok { config := c }
    updateStream := fun c => .ok { config := c }
    deleteStream := fun _ => none
    consumerInfo := fun _ _ => .error .errConsumerNotFound
    addConsumer := fun s c => .ok { stream := s, name := c.name, config := c }
    updateConsumer := fun s c => .ok { stream := s, name := c.name, config := c }
    deleteConsumer := fun _ _ => none }

/-- Witness for C4: against `envNotFound`, `GetStream` returns the
`ErrNotFound` sentinel and `CreateStream` passes the info through. -/
theorem client_error_propagation_witness :
    (client.GetStream envNotFound "orders").err = some .errNotFound ∧
    (∃ info, envNotFound.addStream StreamConfig.zero = .ok info ∧
      (client.CreateStream envNotFound StreamConfig.zero).val = info) :=
  ⟨(client_error_propagation envNotFound "orders" "c" StreamConfig.zero
      ConsumerConfig.zero).1.mpr ⟨rfl, rfl, .errStreamNotFound, rfl, by decide⟩,
   (client_error_propagation envNotFound "orders" "c" StreamConfig.zero
      ConsumerConfig.zero).2.2.2.2.2.2.2.1 rfl⟩

/-- Witness for C5: against `clEcho`, updating the stream `c1Good` (with an
unchanged name) performs exactly the one `UpdateStream` call and writes the
round-tripped state. -/
theorem resource_ops_single_call_witness :
    (streamResource.Update clEcho c1Good c1Good).calls =
      [.updateStream (toStreamConfig c1Good)] ∧
    (streamResource.Update clEcho c1Good c1Good).outcome =
      .set (fromStreamInfo (clEcho.updateStream (toStreamConfig c1Good)).1) :=
  ⟨(resource_ops_single_call clEcho c1Good c1Good c3Model c3Model).2.2.2.2.1 rfl,
   (resource_ops_single_call clEcho c1Good c1Good c3Model c3Model).2.2.2.2.2.1 rfl rfl⟩

/-- C6: every client method invocation produces the same connection trace
`traceShape env`: nothing if `nats.Connect` fails, otherwise exactly one
connection opened, at most one JetStream request on it, and — on every path
on which the connection was opened — the deferred close as the last event
before returning.  Each invocation's trace is a pure function of its own
environment, so no connection is shared between two invocations. -/
theorem client_connection_lifecycle (env : JsEnv) (sn cn : String)
    (scfg : StreamConfig) (ccfg : ConsumerConfig) :
    (client.GetStream env sn).trace = traceShape env ∧
    (client.CreateStream env scfg).trace = traceShape env ∧
    (client.UpdateStream env scfg).trace = traceShape env ∧
    (client.DeleteStream env sn).trace = traceShape env ∧
    (client.GetConsumer env sn cn).trace = traceShape env ∧
    (client.CreateConsumer env sn ccfg).trace = traceShape env ∧
    (client.UpdateConsumer env sn ccfg).trace = traceShape env ∧
    (client.DeleteConsumer env sn cn).trace = traceShape env ∧
    ((traceShape env).count .connOpen = if env.connect = none then 1 else 0) ∧
    ((traceShape env).count .connClose = (traceShape env).count .connOpen) ∧
    ((traceShape env).count .jsRequest ≤ 1) ∧
    (env.connect = none → (traceShape env).getLast? = some .connClose) := by
  obtain ⟨conn, js, si, sadd, sup, sdel, ci, cadd, cup, cdel⟩ := env
  refine ⟨?_, ?_, ?_, ?_, ?_, ?_, ?_, ?_, ?_, ?_, ?_, ?_⟩
  · cases conn with
    | some ce => rfl
    | none =>
      cases js with
      | some je => rfl
      | none =>
        cases hsi : si sn with
        | error e =>
          simp only [client.GetStream, traceShape, hsi]
          split <;> rfl
        | ok info => simp [client.GetStream, traceShape, hsi]
  · cases conn with
    | some ce => rfl
    | none =>
      cases js with
      | some je => rfl
      | none => cases hr : sadd scfg <;> simp [client.CreateStream, traceShape, hr]
  · cases conn with
    | some ce => rfl
    | none =>
      cases js with
      | some je => rfl
      | none => cases hr : sup scfg <;> simp [client.UpdateStream, traceShape, hr]
  · cases conn with
    | some ce => rfl
    | none =>
      cases js with
      | some je => rfl
      | none => cases hr : sdel sn <;> simp [client.DeleteStream, traceShape, hr]
  · cases conn with
    | some ce => rfl
    | none =>
      cases js with
      | some je => rfl
      | none =>
        cases hci : ci sn cn with
        | error e =>
          simp only [client.GetConsumer, traceShape, hci]
          split <;> rfl
        | ok info => simp [client.GetConsumer, traceShape, hci]
  · cases conn with
    | some ce => rfl
    | none =>
      cases js with
      | some je => rfl
      | none => cases hr : cadd sn ccfg <;> simp [client.CreateConsumer, traceShape, hr]
  · cases conn with
    | some ce => rfl
    | none =>
      cases js with
      | some je => rfl
      | none => cases hr : cup sn ccfg <;> simp [client.UpdateConsumer, traceShape, hr]
  · cases conn with
    | some ce => rfl
    | none =>
      cases js with
      | some je => rfl
      | none => cases hr : cdel sn cn <;> simp [client.DeleteConsumer, traceShape, hr]
  · cases conn <;> cases js <;> rfl
  · cases conn <;> cases js <;> rfl
  · cases conn <;> cases js <;> simp [traceShape]
  · intro h
    cases conn with
    | some ce => simp at h
    | none => cases js <;> rfl

/-- Witness for C6 at the concrete environment `envNotFound`. -/
theorem client_connection_lifecycle_witness :
    (client.GetStream envNotFound "orders").trace = traceShape envNotFound ∧
    (traceShape envNotFound).getLast? = some .connClose :=
  ⟨(client_connection_lifecycle envNotFound "orders" "c" StreamConfig.zero
      ConsumerConfig.zero).1,
   (client_connection_lifecycle envNotFound "orders" "c" StreamConfig.zero
      ConsumerConfig.zero).2.2.2.2.2.2.2.2.2.2.2 rfl⟩
